import Mathlib

/-!
Shallow embedding of the voltrade core (`volatility_tools.py`, `position_manager.py`).

Conventions of the embedding:
* Python floats are embedded as exact arithmetic: `ℚ` where the source only
  uses field operations and comparisons, `ℝ` where `math.sqrt` or the
  standard-normal quantile `norm.ppf` appears.  `scipy.stats.norm.ppf` is an
  abstract parameter `ppf : ℝ → ℝ` of the definitions that call it.
* A Python function that can return `None` (or raise, where noted) is embedded
  with an `Option` codomain; `none` stands for `None`, or for a raised
  exception where the doc comment of the definition says so.
* `datetime.utcnow()` is embedded as an explicit `now : ℚ` argument (seconds);
  the metadata timestamp string built from it carries no numeric content used
  by any claim and is omitted from `SignalMetadata`.
* The dict `active_positions` is embedded as a function
  `ℤ × ℤ → Option Position`.
-/

namespace Voltrade

/-- One per-league static profile, from `LEAGUE_PARAMS` in `agent_types.py`. -/
structure LeagueParams where
  total_minutes : ℚ
  vol_threshold : ℚ
  size_multiplier : ℚ
  max_hold_time : ℚ
deriving DecidableEq

/-- The `"NFL"` entry of `LEAGUE_PARAMS`. -/
def nflParams : LeagueParams := ⟨60, 2.0, 1.0, 15.0⟩

/-- The `"NBA"` entry of `LEAGUE_PARAMS`. -/
def nbaParams : LeagueParams := ⟨48, 1.5, 0.8, 12.0⟩

/-- The `"CBB"` entry of `LEAGUE_PARAMS`. -/
def cbbParams : LeagueParams := ⟨40, 1.8, 0.6, 10.0⟩

/-- `LEAGUE_PARAMS` from `agent_types.py` as a partial lookup: the three
configured leagues have profiles, every other string has none. -/
def LEAGUE_PARAMS (league : String) : Option LeagueParams :=
  if league = "NFL" then some nflParams
  else if league = "NBA" then some nbaParams
  else if league = "CBB" then some cbbParams
  else none

/-- Every configured profile has a positive deviation threshold. -/
theorem vol_threshold_pos {league : String} {p : LeagueParams}
    (hp : LEAGUE_PARAMS league = some p) : 0 < p.vol_threshold := by
  unfold LEAGUE_PARAMS at hp
  split_ifs at hp <;>
    simp only [Option.some.injEq] at hp <;>
    subst hp <;> norm_num [nflParams, nbaParams, cbbParams]

/-- Every configured profile has positive total regulation minutes. -/
theorem total_minutes_pos {league : String} {p : LeagueParams}
    (hp : LEAGUE_PARAMS league = some p) : 0 < p.total_minutes := by
  unfold LEAGUE_PARAMS at hp
  split_ifs at hp <;>
    simp only [Option.some.injEq] at hp <;>
    subst hp <;> norm_num [nflParams, nbaParams, cbbParams]

/-- The period marker found in a clock string by `parse_game_clock`
(lines 31-37 of `volatility_tools.py`): one constructor per substring the
code tests for, plus `other` for a clock with none of them. -/
inductive PeriodMarker where
  | m4Q | m4th | m3Q | m3rd | m2Q | m2H | m2nd | other
deriving DecidableEq

/-- The period number `parse_game_clock` assigns to each marker
(`period = 1` when no marker matches). -/
def markerPeriod : PeriodMarker → ℕ
  | .m4Q => 4
  | .m4th => 4
  | .m3Q => 3
  | .m3rd => 3
  | .m2Q => 2
  | .m2H => 2
  | .m2nd => 2
  | .other => 1

theorem markerPeriod_le_four (m : PeriodMarker) : markerPeriod m ≤ 4 := by
  cases m <;> simp [markerPeriod]

theorem one_le_markerPeriod (m : PeriodMarker) : 1 ≤ markerPeriod m := by
  cases m <;> simp [markerPeriod]

/-- `parse_game_clock(clock_str, league)` from `volatility_tools.py`, lines
9-50, embedded after the textual phase: the regex `(\d+):(\d+)` and the
substring scan for a period marker are abstracted to their results
`minutes`, `seconds`, `marker` (a clock with no `MM:SS` group returns `None`
before any arithmetic and is outside this embedding).  An unknown league
raises `KeyError`, swallowed by the bare `except` into `None`.  Note the
source computes `period_length = total_minutes / (4 if period <= 4 else 2)`
— `period` never exceeds 4 — and uses the period only for `NBA`/`CBB`;
other leagues get `total_minutes - (minutes + seconds/60)`.  The result is
`min(1.0, time_elapsed / total_minutes)`, with no lower clamp. -/
def parse_game_clock (league : String) (minutes seconds : ℕ)
    (marker : PeriodMarker) : Option ℚ :=
  match LEAGUE_PARAMS league with
  | none => none
  | some params =>
    if league = "NBA" ∨ league = "CBB" then
      some (min 1
        ((((markerPeriod marker : ℚ) - 1) *
            (params.total_minutes / (if markerPeriod marker ≤ 4 then 4 else 2)) +
          ((params.total_minutes / (if markerPeriod marker ≤ 4 then 4 else 2)) -
            ((minutes : ℚ) + (seconds : ℚ) / 60))) / params.total_minutes))
    else
      some (min 1
        ((params.total_minutes - ((minutes : ℚ) + (seconds : ℚ) / 60)) /
          params.total_minutes))

/-- The game-clock contract as the specification words it (spec-side of the
refinement, for comparison with `parse_game_clock`): period length is
`total_minutes / (4 if the league is quarter-based else 2)` — of the three
configured leagues only `CBB` (college basketball) plays halves — elapsed is
`(period-1)*period_length + (period_length - (MM + SS/60))`, and the result
is clamped to `[0, 1]`. -/
def fraction_elapsed_spec (league : String) (minutes seconds : ℕ)
    (marker : PeriodMarker) : Option ℚ :=
  match LEAGUE_PARAMS league with
  | none => none
  | some params =>
    some (max 0 (min 1
      ((((markerPeriod marker : ℚ) - 1) *
          (params.total_minutes / (if league = "CBB" then 2 else 4)) +
        ((params.total_minutes / (if league = "CBB" then 2 else 4)) -
          ((minutes : ℚ) + (seconds : ℚ) / 60))) / params.total_minutes)))

/-- `get_probability_from_source(source_price, source_format)` from
`volatility_tools.py`, lines 52-81.  Formats: 1 American, 2 Decimal,
3 Percent, 4 Probability, 5 SportTrade (0 to 100). -/
def get_probability_from_source (source_price : ℚ) (source_format : ℤ) :
    Option ℚ :=
  if source_format = 5 then
    if 0 < source_price ∧ source_price < 100 then some (source_price / 100)
    else none
  else if source_format = 4 then
    if 0 < source_price ∧ source_price < 1 then some source_price else none
  else if source_format = 3 then
    if 0 < source_price ∧ source_price < 100 then some (source_price / 100)
    else none
  else if source_format = 2 then
    if 1 < source_price then some (1 / source_price) else none
  else if source_format = 1 then
    if 0 < source_price then some (100 / (source_price + 100))
    else some (|source_price| / (|source_price| + 100))
  else none

/-- `compute_vol_deviation(current_vol, expected_vol)` from
`volatility_tools.py`, lines 175-183: `(current - expected)/expected * 100`,
with no guard and no `try` — `expected_vol == 0` raises `ZeroDivisionError`,
embedded here as `none`. -/
def compute_vol_deviation (current_vol expected_vol : ℚ) : Option ℚ :=
  if expected_vol = 0 then none
  else some ((current_vol - expected_vol) / expected_vol * 100)

/-- The numeric fields of the metadata dict built by `check_vol_signal`
(the wall-clock `timestamp` string is omitted). -/
structure SignalMetadata where
  deviation : ℚ
  threshold : ℚ
  live_vol : ℚ
  expected_vol : ℚ
deriving DecidableEq

/-- `check_vol_signal(live_vol, expected_vol, league, source_format)` from
`volatility_tools.py`, lines 185-227.  The outer `Option` is `none` exactly
when the call raises (the unguarded `ZeroDivisionError` out of
`compute_vol_deviation`); the early returns carry the empty metadata dict,
embedded as the inner `none`. -/
def check_vol_signal (live_vol expected_vol : ℚ) (league : String)
    (source_format : Option ℤ) : Option (Bool × String × Option SignalMetadata) :=
  if source_format ≠ some 5 then some (false, "NO_ACTION", none)
  else
    match LEAGUE_PARAMS league with
    | none => some (false, "NO_ACTION", none)
    | some params =>
      match compute_vol_deviation live_vol expected_vol with
      | none => none
      | some deviation =>
        if |deviation| < params.vol_threshold then
          some (false, "NO_ACTION",
            some ⟨deviation, params.vol_threshold, live_vol, expected_vol⟩)
        else if deviation > params.vol_threshold then
          some (true, "SELL_VOL",
            some ⟨deviation, params.vol_threshold, live_vol, expected_vol⟩)
        else
          some (true, "BUY_VOL",
            some ⟨deviation, params.vol_threshold, live_vol, expected_vol⟩)

/-- `compute_pregame_implied_vol(spread, moneyline_prob)` from
`volatility_tools.py`, lines 83-102: `|spread / ppf(p)|`, guarded for
`p ∈ (0,1)` and `|ppf(p)| ≥ 1e-6`.  `ppf` abstracts `scipy.stats.norm.ppf`. -/
noncomputable def compute_pregame_implied_vol (ppf : ℝ → ℝ)
    (spread moneyline_prob : ℝ) : Option ℝ :=
  if moneyline_prob ≤ 0 ∨ 1 ≤ moneyline_prob then none
  else if |ppf moneyline_prob| < 1 / 1000000 then none
  else some |spread / ppf moneyline_prob|

/-- `compute_live_implied_vol(lead, pregame_spread, time_elapsed,
current_prob, side_index, source_format)` from `volatility_tools.py`,
lines 104-152, with the guard sequence of the source kept in order:
format gate, domain gate, `remain <= 0` gate, spread sign flip for
`side_index == 1`, `|z| < 1e-6` gate, `|denom| < 1e-9` gate.
`ppf` abstracts `scipy.stats.norm.ppf`. -/
noncomputable def compute_live_implied_vol (ppf : ℝ → ℝ)
    (lead pregame_spread time_elapsed current_prob : ℝ) (side_index : ℤ)
    (source_format : Option ℤ) : Option ℝ :=
  if source_format ≠ some 5 then none
  else if 1 ≤ time_elapsed ∨ current_prob ≤ 0 ∨ 1 ≤ current_prob then none
  else if 1 - time_elapsed ≤ 0 then none
  else if |ppf current_prob| < 1 / 1000000 then none
  else if |ppf current_prob * Real.sqrt (1 - time_elapsed)| < 1 / 1000000000 then
    none
  else
    some |(lead +
            (if side_index = 1 then -pregame_spread else pregame_spread) *
              (1 - time_elapsed)) /
          (ppf current_prob * Real.sqrt (1 - time_elapsed))|

/-- `compute_expected_vol(pregame_vol, time_elapsed, league)` from
`volatility_tools.py`, lines 154-173: `pregame_vol * sqrt(1 - t)`, `None`
when `t >= 1` or the league has no profile. -/
noncomputable def compute_expected_vol (pregame_vol time_elapsed : ℝ)
    (league : String) : Option ℝ :=
  if 1 ≤ time_elapsed then none
  else
    match LEAGUE_PARAMS league with
    | none => none
    | some _ => some (pregame_vol * Real.sqrt (1 - time_elapsed))

/-- `get_position_size(league, confidence, vol_diff)` from
`volatility_tools.py`, lines 258-282.  Note the lookup
`LEAGUE_PARAMS.get(league, LEAGUE_PARAMS["NBA"])`: an unknown league falls
back to the NBA profile rather than refusing. -/
def get_position_size (league : String) (confidence vol_diff : ℚ) : ℚ :=
  min 20
    (5 * ((LEAGUE_PARAMS league).getD nbaParams).size_multiplier *
      min 1 confidence *
      min 2 (|vol_diff| / ((LEAGUE_PARAMS league).getD nbaParams).vol_threshold))

/-- The `Position` dataclass from `position_manager.py`.  `entry_time`
(a `datetime` in the source) is embedded as seconds on a rational
timeline. -/
structure Position where
  event_id : ℤ
  league : String
  side_index : ℤ
  entry_time : ℚ
  position_type : String
  size : ℚ
  initial_deviation : ℚ
  initial_live_vol : ℚ
  initial_expected_vol : ℚ
  entry_score_diff : ℚ
  entry_prob : ℚ
  max_hold_time : ℚ
deriving DecidableEq

/-- `PositionManager` state: the dict `active_positions` keyed by
`(event_id, side_index)`, embedded as a function into `Option Position`. -/
structure PositionManager where
  active_positions : ℤ × ℤ → Option Position

/-- `PositionManager.open_position` from `position_manager.py`, lines
29-65.  `now` stands for `datetime.utcnow()` at the call.  The unguarded
`LEAGUE_PARAMS[league]` lookup raises `KeyError` for an unknown league,
embedded as `none`; otherwise the new record is stored at the key —
overwriting whatever was there — and returned. -/
def open_position (m : PositionManager) (now : ℚ) (event_id : ℤ)
    (league : String) (side_index : ℤ) (position_type : String)
    (size live_vol expected_vol score_diff current_prob : ℚ) :
    Option (Position × PositionManager) :=
  match LEAGUE_PARAMS league with
  | none => none
  | some params =>
    let position : Position :=
      { event_id := event_id
        league := league
        side_index := side_index
        entry_time := now
        position_type := position_type
        size := size
        initial_deviation := |live_vol - expected_vol|
        initial_live_vol := live_vol
        initial_expected_vol := expected_vol
        entry_score_diff := score_diff
        entry_prob := current_prob
        max_hold_time := params.max_hold_time }
    some (position,
      ⟨fun k => if k = (event_id, side_index) then some position
                else m.active_positions k⟩)

/-- `PositionManager.check_exit_conditions` from `position_manager.py`,
lines 67-113.  `now` stands for `datetime.utcnow()` at the call, so
`minutes_held = (now - entry_time) / 60`.  The `time_elapsed` and
`current_prob` arguments are accepted and unused, exactly as in the
source. -/
def check_exit_conditions (m : PositionManager) (now : ℚ)
    (event_id side_index : ℤ)
    (current_live_vol current_expected_vol time_elapsed current_prob
      score_diff : ℚ) : Bool × String :=
  match m.active_positions (event_id, side_index) with
  | none => (false, "")
  | some position =>
    if |current_live_vol - current_expected_vol| <
        0.3 * position.initial_deviation then (true, "MEAN_REVERSION")
    else if |current_live_vol - current_expected_vol| >
        1.5 * position.initial_deviation then (true, "STOP_LOSS")
    else if (now - position.entry_time) / 60 ≥ position.max_hold_time then
      (true, "TIME_BASED")
    else if |score_diff - position.entry_score_diff| > 14 then
      (true, "GAME_STATE")
    else (false, "")

/-- `PositionManager.close_position` from `position_manager.py`, lines
115-125: pop the key (a no-op returning `None` when absent) and return the
removed record. -/
def close_position (m : PositionManager) (event_id side_index : ℤ) :
    Option Position × PositionManager :=
  match m.active_positions (event_id, side_index) with
  | none => (none, m)
  | some position =>
    (some position,
      ⟨fun k => if k = (event_id, side_index) then none
                else m.active_positions k⟩)

/-- A concrete open position used to exercise the manager theorems. -/
def samplePosition : Position :=
  { event_id := 7
    league := "NBA"
    side_index := 1
    entry_time := 0
    position_type := "BUY_VOL"
    size := 5
    initial_deviation := 2
    initial_live_vol := 12
    initial_expected_vol := 10
    entry_score_diff := 3
    entry_prob := 1/2
    max_hold_time := 12 }

/-- A concrete manager state holding `samplePosition` at key `(7, 1)`. -/
def sampleManager : PositionManager :=
  ⟨fun k => if k = (7, 1) then some samplePosition else none⟩

/-! Theorems settling the claims. -/

/-- C1: with the exchange-traded source format (5), a profiled league and a
nonzero expected vol, `check_vol_signal` returns `NO_ACTION` with
`should_trade = false` when `|deviation| < threshold`, `(true, SELL_VOL)`
when `deviation > threshold`, and `(true, BUY_VOL)` when
`deviation < -threshold`, where
`deviation = (live_vol - expected_vol) / expected_vol * 100` and `threshold`
is the league's deviation threshold. -/
theorem check_vol_signal_threshold_cases (live_vol expected_vol : ℚ)
    (league : String) (p : LeagueParams) (hp : LEAGUE_PARAMS league = some p)
    (hexp : expected_vol ≠ 0) :
    (|(live_vol - expected_vol) / expected_vol * 100| < p.vol_threshold →
      check_vol_signal live_vol expected_vol league (some 5) =
        some (false, "NO_ACTION",
          some ⟨(live_vol - expected_vol) / expected_vol * 100,
            p.vol_threshold, live_vol, expected_vol⟩)) ∧
    ((live_vol - expected_vol) / expected_vol * 100 > p.vol_threshold →
      check_vol_signal live_vol expected_vol league (some 5) =
        some (true, "SELL_VOL",
          some ⟨(live_vol - expected_vol) / expected_vol * 100,
            p.vol_threshold, live_vol, expected_vol⟩)) ∧
    ((live_vol - expected_vol) / expected_vol * 100 < -p.vol_threshold →
      check_vol_signal live_vol expected_vol league (some 5) =
        some (true, "BUY_VOL",
          some ⟨(live_vol - expected_vol) / expected_vol * 100,
            p.vol_threshold, live_vol, expected_vol⟩)) := by
  have ht : 0 < p.vol_threshold := vol_threshold_pos hp
  have hdev : compute_vol_deviation live_vol expected_vol =
      some ((live_vol - expected_vol) / expected_vol * 100) := by
    unfold compute_vol_deviation
    rw [if_neg hexp]
  have hbase : check_vol_signal live_vol expected_vol league (some 5) =
      (if |(live_vol - expected_vol) / expected_vol * 100| < p.vol_threshold
        then some (false, "NO_ACTION",
          some ⟨(live_vol - expected_vol) / expected_vol * 100,
            p.vol_threshold, live_vol, expected_vol⟩)
      else if (live_vol - expected_vol) / expected_vol * 100 > p.vol_threshold
        then some (true, "SELL_VOL",
          some ⟨(live_vol - expected_vol) / expected_vol * 100,
            p.vol_threshold, live_vol, expected_vol⟩)
      else some (true, "BUY_VOL",
        some ⟨(live_vol - expected_vol) / expected_vol * 100,
          p.vol_threshold, live_vol, expected_vol⟩)) := by
    unfold check_vol_signal
    rw [if_neg (by simp), hp, hdev]
  refine ⟨fun h => ?_, fun h => ?_, fun h => ?_⟩
  · rw [hbase, if_pos h]
  · have h1 : ¬ |(live_vol - expected_vol) / expected_vol * 100| <
        p.vol_threshold :=
      not_lt.mpr (le_trans h.le (le_abs_self _))
    rw [hbase, if_neg h1, if_pos h]
  · have h1 : ¬ |(live_vol - expected_vol) / expected_vol * 100| <
        p.vol_threshold := by
      rw [not_lt, ← neg_neg ((live_vol - expected_vol) / expected_vol * 100)]
      exact le_trans (by linarith) (neg_le_abs _)
    have h2 : ¬ (live_vol - expected_vol) / expected_vol * 100 >
        p.vol_threshold := by linarith
    rw [hbase, if_neg h1, if_neg h2]

/-- C1 witness: NBA (threshold 1.5), live 12 vs expected 10 gives deviation
20 > 1.5, so the signal is `(true, SELL_VOL)`. -/
theorem check_vol_signal_threshold_cases_witness :
    LEAGUE_PARAMS "NBA" = some nbaParams ∧ (10 : ℚ) ≠ 0 ∧
    check_vol_signal 12 10 "NBA" (some 5) =
      some (true, "SELL_VOL",
        some ⟨((12 : ℚ) - 10) / 10 * 100, nbaParams.vol_threshold, 12, 10⟩) :=
  ⟨rfl, by norm_num,
    (check_vol_signal_threshold_cases 12 10 "NBA" nbaParams rfl
      (by norm_num)).2.1 (by norm_num [nbaParams])⟩

/-- C6: at the failing input `expected_vol = 0` (with the tradeable format
and a profiled league) the unguarded division in `compute_vol_deviation`
raises `ZeroDivisionError`, which propagates out of `check_vol_signal` —
embedded as `none` — instead of the explicit no-value triple the claim
requires. -/
theorem check_vol_signal_zero_expected_raises :
    compute_vol_deviation 1 0 = none ∧
    check_vol_signal 1 0 "NBA" (some 5) = none := by
  constructor <;> rfl

/-- C8 counterexample: for the AMERICAN format, price `0` is not rejected —
the negative branch computes `|0| / (|0| + 100)` and the function silently
returns probability `0`. -/
theorem get_probability_american_zero_not_rejected :
    get_probability_from_source 0 1 = some 0 := by
  norm_num [get_probability_from_source]

/-- C8 amended: for the AMERICAN source format, `to_probability` returns
`100 / (100 + price)` for every price > 0 and `|price| / (|price| + 100)`
for every price ≤ 0; in particular price 0 yields probability 0 rather than
being rejected. -/
theorem get_probability_american_formula (price : ℚ) :
    get_probability_from_source price 1 =
      some (if 0 < price then 100 / (price + 100)
            else |price| / (|price| + 100)) := by
  unfold get_probability_from_source
  norm_num
  split_ifs <;> rfl

/-- C7 counterexample: `"XYZ"` has no profile, yet `get_position_size`
computes a size for it — and it is exactly the size the NBA profile
yields, i.e. the size was computed from substitute parameters of a
different league. -/
theorem get_position_size_unknown_league_uses_nba :
    LEAGUE_PARAMS "XYZ" = none ∧
    get_position_size "XYZ" 1 (3/2) = 4 ∧
    get_position_size "NBA" 1 (3/2) = 4 := by
  have h1 : LEAGUE_PARAMS "XYZ" = none := rfl
  have h2 : LEAGUE_PARAMS "NBA" = some nbaParams := rfl
  refine ⟨rfl, ?_, ?_⟩ <;>
    · unfold get_position_size
      first
        | rw [h1]
        | rw [h2]
      simp only [Option.getD_none, Option.getD_some]
      norm_num [nbaParams, min_def, abs_of_pos]

/-- C7 amended: for a league with no profile, `check_vol_signal` returns
`(false, NO_ACTION)` (with empty metadata, for any source format) and
`compute_expected_vol` returns undefined, but `get_position_size` falls
back to the NBA profile and returns the same size it would return for
NBA. -/
theorem unknown_league_behavior (league : String)
    (h : LEAGUE_PARAMS league = none) (live_vol expected_vol : ℚ)
    (source_format : Option ℤ) (pregame_vol time_elapsed : ℝ)
    (confidence vol_diff : ℚ) :
    check_vol_signal live_vol expected_vol league source_format =
      some (false, "NO_ACTION", none) ∧
    compute_expected_vol pregame_vol time_elapsed league = none ∧
    get_position_size league confidence vol_diff =
      get_position_size "NBA" confidence vol_diff := by
  refine ⟨?_, ?_, ?_⟩
  · unfold check_vol_signal
    by_cases hf : source_format = some 5
    · rw [if_neg (by simp [hf]), h]
    · rw [if_pos (by simp [hf])]
  · unfold compute_expected_vol
    by_cases htime : (1 : ℝ) ≤ time_elapsed
    · rw [if_pos htime]
    · rw [if_neg htime, h]
  · unfold get_position_size
    rw [h]
    rfl

/-- C7 amended witness: the unknown league `"XYZ"` at concrete arguments. -/
theorem unknown_league_behavior_witness :
    LEAGUE_PARAMS "XYZ" = none ∧
    (check_vol_signal 12 10 "XYZ" (some 5) = some (false, "NO_ACTION", none) ∧
     compute_expected_vol 9 (1/2) "XYZ" = none ∧
     get_position_size "XYZ" 1 (3/2) = get_position_size "NBA" 1 (3/2)) :=
  ⟨rfl, unknown_league_behavior "XYZ" rfl 12 10 (some 5) 9 (1/2) 1 (3/2)⟩

/-- C4 counterexample: for confidence 1, size multiplier 1 (the NFL
profile) and deviation `10 × threshold = 20`, the deviation multiplier is
capped at 2, so the raw size is `5 × 1 × 1 × 2 = 10` — it does not exceed
20, and the returned size is 10, not 20. -/
theorem get_position_size_cap_not_reached :
    get_position_size "NFL" 1 20 = 10 ∧ (10 : ℚ) ≠ 20 := by
  constructor
  · norm_num [get_position_size, LEAGUE_PARAMS, nflParams]
  · norm_num

/-- C4 amended: for every league with a profile, `get_position_size`
returns exactly
`min(20, 5 × size_multiplier × min(1, confidence) × min(2, |deviation| / threshold))`;
because the deviation multiplier is capped at 2, for confidence 1.0,
deviation `10 × threshold` and size multiplier 1.0 the raw size is 10%,
not above 20%, and the returned size is 10%. -/
theorem get_position_size_formula (league : String) (p : LeagueParams)
    (hp : LEAGUE_PARAMS league = some p) (confidence vol_diff : ℚ) :
    get_position_size league confidence vol_diff =
      min 20 (5 * p.size_multiplier * min 1 confidence *
        min 2 (|vol_diff| / p.vol_threshold)) := by
  unfold get_position_size
  rw [hp]
  rfl

/-- C4 amended witness: the NFL profile at confidence 1 and deviation
`10 × threshold = 20` returns 10. -/
theorem get_position_size_formula_witness :
    get_position_size "NFL" 1 20 = 10 :=
  (get_position_size_formula "NFL" nflParams rfl 1 20).trans
    (by norm_num [nflParams])

/-- C9: for a fixed nonnegative pregame vol and a profiled league,
`compute_expected_vol` is monotonically non-increasing in `time_elapsed`:
for `t₁ < t₂ < 1` both calls are defined and the value at `t₂` is at most
the value at `t₁`. -/
theorem compute_expected_vol_antitone (pregame_vol t₁ t₂ : ℝ)
    (league : String) (p : LeagueParams) (hv : 0 ≤ pregame_vol)
    (h12 : t₁ < t₂) (h2 : t₂ < 1) (hp : LEAGUE_PARAMS league = some p) :
    ∃ e₁ e₂, compute_expected_vol pregame_vol t₁ league = some e₁ ∧
      compute_expected_vol pregame_vol t₂ league = some e₂ ∧ e₂ ≤ e₁ := by
  have h1 : t₁ < 1 := h12.trans h2
  refine ⟨pregame_vol * Real.sqrt (1 - t₁), pregame_vol * Real.sqrt (1 - t₂),
    ?_, ?_, ?_⟩
  · unfold compute_expected_vol
    rw [if_neg (not_le.mpr h1), hp]
  · unfold compute_expected_vol
    rw [if_neg (not_le.mpr h2), hp]
  · exact mul_le_mul_of_nonneg_left
      (Real.sqrt_le_sqrt (by linarith)) hv

/-- C9 witness: NBA, pregame vol 1, times 0 and 3/4. -/
theorem compute_expected_vol_antitone_witness :
    (0 : ℝ) ≤ 1 ∧ (0 : ℝ) < 3/4 ∧ (3/4 : ℝ) < 1 ∧
    LEAGUE_PARAMS "NBA" = some nbaParams ∧
    (∃ e₁ e₂, compute_expected_vol 1 0 "NBA" = some e₁ ∧
      compute_expected_vol 1 (3/4) "NBA" = some e₂ ∧ e₂ ≤ e₁) :=
  ⟨by norm_num, by norm_num, by norm_num, rfl,
    compute_expected_vol_antitone 1 0 (3/4) "NBA" nbaParams
      (by norm_num) (by norm_num) (by norm_num) rfl⟩

/-- C3: `check_exit_conditions` evaluates its four exit triggers in the
fixed priority order MEAN_REVERSION (current deviation below 0.3 of the
initial one), STOP_LOSS (above 1.5 of the initial one), TIME_BASED
(minutes held at least `max_hold_time`), GAME_STATE (score swing above 14),
returning the reason of the first trigger that holds; when MEAN_REVERSION
and TIME_BASED hold simultaneously the reason is MEAN_REVERSION, and when
no trigger holds the result is `(false, "")`. -/
theorem check_exit_conditions_priority (m : PositionManager) (now : ℚ)
    (event_id side_index : ℤ)
    (current_live_vol current_expected_vol time_elapsed current_prob
      score_diff : ℚ) (position : Position)
    (hpos : m.active_positions (event_id, side_index) = some position) :
    (|current_live_vol - current_expected_vol| <
        0.3 * position.initial_deviation →
      check_exit_conditions m now event_id side_index current_live_vol
        current_expected_vol time_elapsed current_prob score_diff =
        (true, "MEAN_REVERSION")) ∧
    (¬ |current_live_vol - current_expected_vol| <
        0.3 * position.initial_deviation →
      |current_live_vol - current_expected_vol| >
        1.5 * position.initial_deviation →
      check_exit_conditions m now event_id side_index current_live_vol
        current_expected_vol time_elapsed current_prob score_diff =
        (true, "STOP_LOSS")) ∧
    (¬ |current_live_vol - current_expected_vol| <
        0.3 * position.initial_deviation →
      ¬ |current_live_vol - current_expected_vol| >
        1.5 * position.initial_deviation →
      (now - position.entry_time) / 60 ≥ position.max_hold_time →
      check_exit_conditions m now event_id side_index current_live_vol
        current_expected_vol time_elapsed current_prob score_diff =
        (true, "TIME_BASED")) ∧
    (¬ |current_live_vol - current_expected_vol| <
        0.3 * position.initial_deviation →
      ¬ |current_live_vol - current_expected_vol| >
        1.5 * position.initial_deviation →
      ¬ (now - position.entry_time) / 60 ≥ position.max_hold_time →
      |score_diff - position.entry_score_diff| > 14 →
      check_exit_conditions m now event_id side_index current_live_vol
        current_expected_vol time_elapsed current_prob score_diff =
        (true, "GAME_STATE")) ∧
    (¬ |current_live_vol - current_expected_vol| <
        0.3 * position.initial_deviation →
      ¬ |current_live_vol - current_expected_vol| >
        1.5 * position.initial_deviation →
      ¬ (now - position.entry_time) / 60 ≥ position.max_hold_time →
      ¬ |score_diff - position.entry_score_diff| > 14 →
      check_exit_conditions m now event_id side_index current_live_vol
        current_expected_vol time_elapsed current_prob score_diff =
        (false, "")) ∧
    (|current_live_vol - current_expected_vol| <
        0.3 * position.initial_deviation ∧
      (now - position.entry_time) / 60 ≥ position.max_hold_time →
      check_exit_conditions m now event_id side_index current_live_vol
        current_expected_vol time_elapsed current_prob score_diff =
        (true, "MEAN_REVERSION")) := by
  have hbase : check_exit_conditions m now event_id side_index
      current_live_vol current_expected_vol time_elapsed current_prob
      score_diff =
      (if |current_live_vol - current_expected_vol| <
          0.3 * position.initial_deviation then (true, "MEAN_REVERSION")
      else if |current_live_vol - current_expected_vol| >
          1.5 * position.initial_deviation then (true, "STOP_LOSS")
      else if (now - position.entry_time) / 60 ≥ position.max_hold_time then
        (true, "TIME_BASED")
      else if |score_diff - position.entry_score_diff| > 14 then
        (true, "GAME_STATE")
      else (false, "")) := by
    unfold check_exit_conditions
    rw [hpos]
  refine ⟨fun h1 => ?_, fun h1 h2 => ?_, fun h1 h2 h3 => ?_,
    fun h1 h2 h3 h4 => ?_, fun h1 h2 h3 h4 => ?_, fun h => ?_⟩
  · rw [hbase, if_pos h1]
  · rw [hbase, if_neg h1, if_pos h2]
  · rw [hbase, if_neg h1, if_neg h2, if_pos h3]
  · rw [hbase, if_neg h1, if_neg h2, if_neg h3, if_pos h4]
  · rw [hbase, if_neg h1, if_neg h2, if_neg h3, if_neg h4]
  · rw [hbase, if_pos h.1]

/-- C3 witness: `samplePosition` (initial deviation 2, max hold 12 min,
entry at time 0) checked at time 3600 s with current deviation 0 — both
the mean-reversion and time-based triggers hold, and the reported reason
is MEAN_REVERSION. -/
theorem check_exit_conditions_priority_witness :
    sampleManager.active_positions (7, 1) = some samplePosition ∧
    (|(10 : ℚ) - 10| < 0.3 * samplePosition.initial_deviation ∧
      ((3600 : ℚ) - samplePosition.entry_time) / 60 ≥
        samplePosition.max_hold_time) ∧
    check_exit_conditions sampleManager 3600 7 1 10 10 (1/2) (1/2) 3 =
      (true, "MEAN_REVERSION") :=
  ⟨rfl, ⟨by norm_num [samplePosition], by norm_num [samplePosition]⟩,
    (check_exit_conditions_priority sampleManager 3600 7 1 10 10 (1/2) (1/2) 3
      samplePosition rfl).2.2.2.2.2
      ⟨by norm_num [samplePosition], by norm_num [samplePosition]⟩⟩

/-- C10: `open_position` with a profiled league always succeeds, returns
the freshly built record, stores exactly that record at
`(event_id, side_index)` — silently replacing whatever was there, which is
neither closed nor returned — and leaves every other key unchanged. -/
theorem open_position_replaces (m : PositionManager) (now : ℚ)
    (event_id : ℤ) (league : String) (side_index : ℤ)
    (position_type : String) (size live_vol expected_vol score_diff
      current_prob : ℚ) (p : LeagueParams)
    (hp : LEAGUE_PARAMS league = some p) :
    ∃ pos m',
      open_position m now event_id league side_index position_type size
        live_vol expected_vol score_diff current_prob = some (pos, m') ∧
      pos = { event_id := event_id, league := league,
              side_index := side_index, entry_time := now,
              position_type := position_type, size := size,
              initial_deviation := |live_vol - expected_vol|,
              initial_live_vol := live_vol,
              initial_expected_vol := expected_vol,
              entry_score_diff := score_diff, entry_prob := current_prob,
              max_hold_time := p.max_hold_time } ∧
      m'.active_positions (event_id, side_index) = some pos ∧
      ∀ k, k ≠ (event_id, side_index) →
        m'.active_positions k = m.active_positions k := by
  unfold open_position
  rw [hp]
  exact ⟨_, _, rfl, rfl, if_pos rfl, fun k hk => if_neg hk⟩

/-- C10 witness: opening over `sampleManager`, whose key `(7, 1)` already
holds `samplePosition`, succeeds and overwrites that key. -/
theorem open_position_replaces_witness :
    LEAGUE_PARAMS "NBA" = some nbaParams ∧
    (∃ pos m',
      open_position sampleManager 60 7 "NBA" 1 "SELL_VOL" 4 20 10 (-3)
        (2/5) = some (pos, m') ∧
      pos = { event_id := 7, league := "NBA", side_index := 1,
              entry_time := 60, position_type := "SELL_VOL", size := 4,
              initial_deviation := |(20 : ℚ) - 10|,
              initial_live_vol := 20, initial_expected_vol := 10,
              entry_score_diff := -3, entry_prob := 2/5,
              max_hold_time := nbaParams.max_hold_time } ∧
      m'.active_positions (7, 1) = some pos ∧
      ∀ k, k ≠ ((7 : ℤ), (1 : ℤ)) →
        m'.active_positions k = sampleManager.active_positions k) :=
  ⟨rfl, open_position_replaces sampleManager 60 7 "NBA" 1 "SELL_VOL" 4 20 10
    (-3) (2/5) nbaParams rfl⟩

/-- C2: for every quantile function `ppf`, `compute_live_implied_vol` is
undefined exactly when the source format is not 5, or `t ≥ 1`, or the
probability is not strictly between 0 and 1, or `|ppf p| < 1e-6`, or the
denominator magnitude `|ppf p * sqrt(1-t)| < 1e-9`; otherwise it returns
`|(l + μ(1-t)) / (ppf p * sqrt(1-t))|` where `μ` is the negated raw
pregame spread for side 1 and the raw spread otherwise. -/
theorem compute_live_implied_vol_spec (ppf : ℝ → ℝ)
    (lead pregame_spread time_elapsed current_prob : ℝ) (side_index : ℤ)
    (source_format : Option ℤ) :
    compute_live_implied_vol ppf lead pregame_spread time_elapsed
        current_prob side_index source_format =
      if source_format ≠ some 5 ∨ 1 ≤ time_elapsed ∨ current_prob ≤ 0 ∨
          1 ≤ current_prob ∨ |ppf current_prob| < 1 / 1000000 ∨
          |ppf current_prob * Real.sqrt (1 - time_elapsed)| < 1 / 1000000000
      then none
      else
        some |(lead +
                (if side_index = 1 then -pregame_spread else pregame_spread) *
                  (1 - time_elapsed)) /
              (ppf current_prob * Real.sqrt (1 - time_elapsed))| := by
  unfold compute_live_implied_vol
  by_cases hf : source_format ≠ some 5
  · rw [if_pos hf, if_pos (Or.inl hf)]
  · rw [if_neg hf]
    by_cases hdom : 1 ≤ time_elapsed ∨ current_prob ≤ 0 ∨ 1 ≤ current_prob
    · have hc : source_format ≠ some 5 ∨ 1 ≤ time_elapsed ∨
          current_prob ≤ 0 ∨ 1 ≤ current_prob ∨
          |ppf current_prob| < 1 / 1000000 ∨
          |ppf current_prob * Real.sqrt (1 - time_elapsed)| <
            1 / 1000000000 := by
        rcases hdom with h | h | h
        · exact Or.inr (Or.inl h)
        · exact Or.inr (Or.inr (Or.inl h))
        · exact Or.inr (Or.inr (Or.inr (Or.inl h)))
      rw [if_pos hdom, if_pos hc]
    · have h1 : ¬ 1 ≤ time_elapsed := fun h => hdom (Or.inl h)
      have hrem : ¬ 1 - time_elapsed ≤ 0 := by
        push_neg
        linarith [not_le.mp h1]
      rw [if_neg hdom, if_neg hrem]
      by_cases hz : |ppf current_prob| < 1 / 1000000
      · rw [if_pos hz,
          if_pos (Or.inr (Or.inr (Or.inr (Or.inr (Or.inl hz)))))]
      · rw [if_neg hz]
        by_cases hd : |ppf current_prob *
            Real.sqrt (1 - time_elapsed)| < 1 / 1000000000
        · rw [if_pos hd,
            if_pos (Or.inr (Or.inr (Or.inr (Or.inr (Or.inr hd)))))]
        · have hcond : ¬ (source_format ≠ some 5 ∨ 1 ≤ time_elapsed ∨
              current_prob ≤ 0 ∨ 1 ≤ current_prob ∨
              |ppf current_prob| < 1 / 1000000 ∨
              |ppf current_prob * Real.sqrt (1 - time_elapsed)| <
                1 / 1000000000) := by
            push_neg
            push_neg at hdom
            exact ⟨not_not.mp hf, hdom.1, hdom.2.1, hdom.2.2,
              not_lt.mp hz, not_lt.mp hd⟩
          rw [if_neg hd, if_neg hcond]

/-- C5 counterexample: for the half-based league CBB with clock "10:00 2H",
the code computes period length `40 / 4 = 10` (the `else 2` branch of
`4 if period <= 4 else 2` is unreachable, since the period is at most 4)
and returns 1/4, while the specified formula — period length
`total_minutes / 2` for a half-based league — gives 3/4. -/
theorem parse_game_clock_cbb_halves_diverges :
    parse_game_clock "CBB" 10 0 PeriodMarker.m2H = some (1/4) ∧
    fraction_elapsed_spec "CBB" 10 0 PeriodMarker.m2H = some (3/4) := by
  have h : LEAGUE_PARAMS "CBB" = some cbbParams := rfl
  constructor
  · simp only [parse_game_clock, h]
    norm_num [markerPeriod, cbbParams, min_def]
  · simp only [fraction_elapsed_spec, h]
    norm_num [markerPeriod, cbbParams, min_def, max_def]

/-- C5 amended: for a profiled league, the fraction elapsed is
`elapsed / total_minutes` clamped above at 1 (there is no lower clamp in
the code), where for NBA and CBB
`elapsed = (period-1) * (total_minutes/4) + (total_minutes/4 - (MM + SS/60))`
— the period length is always `total_minutes / 4`, halves included — and
for any other profiled league (NFL) the period marker is ignored and
`elapsed = total_minutes - (MM + SS/60)`; when the clock reading does not
exceed the quarter length `total_minutes / 4`, the result does lie in
`[0, 1]`. -/
theorem parse_game_clock_formula (league : String) (p : LeagueParams)
    (hp : LEAGUE_PARAMS league = some p) (minutes seconds : ℕ)
    (marker : PeriodMarker) :
    parse_game_clock league minutes seconds marker =
      some (min 1
        ((if league = "NBA" ∨ league = "CBB" then
            ((markerPeriod marker : ℚ) - 1) * (p.total_minutes / 4) +
              (p.total_minutes / 4 - ((minutes : ℚ) + (seconds : ℚ) / 60))
          else p.total_minutes - ((minutes : ℚ) + (seconds : ℚ) / 60)) /
          p.total_minutes)) ∧
    ((minutes : ℚ) + (seconds : ℚ) / 60 ≤ p.total_minutes / 4 →
      ∃ r, parse_game_clock league minutes seconds marker = some r ∧
        0 ≤ r ∧ r ≤ 1) := by
  have hT : 0 < p.total_minutes := total_minutes_pos hp
  have hper1 : (1 : ℚ) ≤ (markerPeriod marker : ℚ) := by
    exact_mod_cast one_le_markerPeriod marker
  have hmain : parse_game_clock league minutes seconds marker =
      some (min 1
        ((if league = "NBA" ∨ league = "CBB" then
            ((markerPeriod marker : ℚ) - 1) * (p.total_minutes / 4) +
              (p.total_minutes / 4 - ((minutes : ℚ) + (seconds : ℚ) / 60))
          else p.total_minutes - ((minutes : ℚ) + (seconds : ℚ) / 60)) /
          p.total_minutes)) := by
    simp only [parse_game_clock, hp]
    by_cases hL : league = "NBA" ∨ league = "CBB"
    · rw [if_pos hL, if_pos (markerPeriod_le_four marker), if_pos hL]
    · rw [if_neg hL, if_neg hL]
  refine ⟨hmain, fun hms => ?_⟩
  refine ⟨_, hmain, ?_, min_le_left _ _⟩
  refine le_min (by norm_num) (div_nonneg ?_ hT.le)
  by_cases hL : league = "NBA" ∨ league = "CBB"
  · rw [if_pos hL]
    have h4 : 0 ≤ p.total_minutes / 4 := by positivity
    nlinarith
  · rw [if_neg hL]
    nlinarith

/-- C5 amended witness: NBA, clock "6:00 2Q" — period length 12, elapsed
`12 + 6 = 18` of 48 minutes, fraction 3/8 = 0.375. -/
theorem parse_game_clock_formula_witness :
    LEAGUE_PARAMS "NBA" = some nbaParams ∧
    parse_game_clock "NBA" 6 0 PeriodMarker.m2Q = some (3/8) := by
  refine ⟨rfl, ?_⟩
  have h := (parse_game_clock_formula "NBA" nbaParams rfl 6 0
    PeriodMarker.m2Q).1
  rw [h, if_pos (show ("NBA" : String) = "NBA" ∨ ("NBA" : String) = "CBB" from
    Or.inl rfl)]
  norm_num [markerPeriod, nbaParams, min_def]

end Voltrade
